import Mathlib

/-!
Shallow embedding of the memegenerator backend's retrieval-and-caching layer
(`src/server/controllers/templateController.js`, `src/server/routes/templateRoutes.js`,
the meme like/unlike route and the meme/template schemas), together with proofs
about the template-listing pipeline, its Freshness Cache, the parameter parsing,
the like/unlike toggle and the favorite/popularity counter.

Conventions of the embedding:
* machine numbers are `Int`/`Nat`; JavaScript `parseInt(x) || d` is modelled by
  an `Option Int` (with `none` standing for `NaN`, i.e. a non-numeric input)
  fed through `jsOr`, which also maps `0` to the default (`0` is falsy in JS);
* `Date.now()` is an explicit `now : Nat` parameter, `Math.random()` an explicit
  `rand : Nat → Nat` parameter (used modulo 1000, matching
  `Math.floor(Math.random() * 1000)`'s range `[0, 1000)`);
* the MongoDB collection is a `List` of records; `find(query)` is `List.filter`,
  `countDocuments` is the filtered length, `sort({popularity:-1, createdAt:-1})`
  is an insertion sort by that key, `skip`/`limit` are `drop`/`take`
  (the settled claims always have non-negative skip), `.select(...)` is a
  field projection;
* a `$regex ... $options: 'i'` search is modelled as a case-insensitive
  literal substring match, as the specification's Query Builder prescribes;
* fallible operations return `Except`; an HTTP response is a status code plus a
  body record in which optional JSON fields are `Option`s.
-/

namespace MemeGen

/-- JavaScript `v || d` applied to the result of `parseInt`: `none` models `NaN`
(non-numeric or absent input) and `0` is falsy, so both fall back to `d`. -/
def jsOr (v : Option Int) (d : Int) : Int :=
  match v with
  | none => d
  | some n => if n = 0 then d else n

/-- Truthiness of an optional string (JS: `undefined` and `""` are falsy). -/
def jsTruthyStr (v : Option String) : Bool :=
  match v with
  | none => false
  | some s => !s.isEmpty

/-- Truthiness of an optional numeric timestamp (JS: `null` and `0` are falsy). -/
def jsTruthyTime (v : Option Nat) : Bool :=
  match v with
  | none => false
  | some n => n != 0

/-- `Math.ceil (a / b)` for a natural `a` and positive `b`; all settled claims
restrict `limit` to `[1,100]`, so only positive divisors arise. -/
def ceilDiv (a b : Nat) : Nat := (a + b - 1) / b

/-- Resolution of a possibly negative JS `Array.prototype.slice` index against a
length: negative indices count from the end, large ones clamp to the length. -/
def jsSliceIdx (len : Nat) (i : Int) : Nat :=
  if i < 0 then ((len : Int) + i).toNat else min i.toNat len

/-- JavaScript `Array.prototype.slice(s, e)`. -/
def jsSlice (l : List α) (s e : Int) : List α :=
  (l.take (jsSliceIdx l.length e)).drop (jsSliceIdx l.length s)

/-- Does `needle` occur at the front of `hay`? -/
def matchesFront : List Char → List Char → Bool
  | _, [] => true
  | [], _ :: _ => false
  | c :: cs, d :: ds => c == d && matchesFront cs ds

/-- Does `needle` occur contiguously anywhere in `hay`? -/
def containsChars : List Char → List Char → Bool
  | [], needle => needle.isEmpty
  | c :: cs, needle => matchesFront (c :: cs) needle || containsChars cs needle

/-- ASCII lower-casing of one character (the model of `toLowerCase` on the
character sets the repository uses). -/
def lowerChar (c : Char) : Char :=
  if 65 ≤ c.toNat && c.toNat ≤ 90 then Char.ofNat (c.toNat + 32) else c

/-- Lower-casing of a character list. -/
def lowerList (l : List Char) : List Char := l.map lowerChar

/-- Case-insensitive literal substring match, the model of
`{ $regex: pat, $options: 'i' }` applied to a stored string. -/
def regexIMatch (stored pat : String) : Bool :=
  containsChars (lowerList stored.toList) (lowerList pat.toList)

/-- A stored Template record, with the fields the controller touches
(`templateId name url width height category boxCount popularity createdAt`,
cf. the seeder's shape in `templateController.js:88-97`). -/
structure Template where
  templateId : String
  name : String
  url : String
  width : Nat
  height : Nat
  category : String
  boxCount : Nat
  popularity : Int
  createdAt : Nat
  deriving Repr, DecidableEq

/-- A template object as serialized into a response body: every field is
optional because the store-bound path projects
`.select('templateId name url width height category createdAt')`, dropping
`boxCount` and `popularity`, while the cached path returns full records. -/
structure TemplateJson where
  templateId : Option String
  name : Option String
  url : Option String
  width : Option Nat
  height : Option Nat
  category : Option String
  boxCount : Option Nat
  popularity : Option Int
  createdAt : Option Nat
  deriving Repr, DecidableEq

/-- Serialization of a full (unprojected) template record, as returned by the
cached path (`templateCache.data` holds `.lean()` documents with all fields). -/
def Template.toFullJson (t : Template) : TemplateJson :=
  { templateId := some t.templateId, name := some t.name, url := some t.url
    width := some t.width, height := some t.height, category := some t.category
    boxCount := some t.boxCount, popularity := some t.popularity
    createdAt := some t.createdAt }

/-- Serialization of a projected template record, as returned by the store-bound
path after `.select('templateId name url width height category createdAt')`. -/
def Template.toSelectedJson (t : Template) : TemplateJson :=
  { templateId := some t.templateId, name := some t.name, url := some t.url
    width := some t.width, height := some t.height, category := some t.category
    boxCount := none, popularity := none
    createdAt := some t.createdAt }

/-- Sort key of `.sort({ popularity: -1, createdAt: -1 })`: `a` may precede `b`
iff `a` has greater popularity, or equal popularity and no older creation. -/
def sortKeyLe (a b : Template) : Bool :=
  (b.popularity < a.popularity) ||
    (a.popularity == b.popularity && decide (b.createdAt ≤ a.createdAt))

/-- Insertion step of the sort modelling the store's ordered read. -/
def sortInsert (a : Template) : List Template → List Template
  | [] => [a]
  | b :: l => if sortKeyLe a b then a :: b :: l else b :: sortInsert a l

/-- The store's ordered read: the filtered collection sorted by
`{ popularity: -1, createdAt: -1 }`. -/
def sortByPopCreated : List Template → List Template
  | [] => []
  | a :: l => sortInsert a (sortByPopCreated l)

theorem length_sortInsert (a : Template) (l : List Template) :
    (sortInsert a l).length = l.length + 1 := by
  induction l with
  | nil => rfl
  | cons b l ih =>
    simp only [sortInsert]
    split <;> simp [ih]

theorem length_sortByPopCreated (l : List Template) :
    (sortByPopCreated l).length = l.length := by
  induction l with
  | nil => rfl
  | cons a l ih => simp [sortByPopCreated, length_sortInsert, ih]

/-- `buildTemplateQuery` (`templateController.js:107-122`): the store predicate
built from the optional `search` and `category` parameters.  `search` matches
case-insensitively against `name` OR `category`; `category` is lower-cased and
matched exactly; a falsy (absent or empty) parameter contributes no condition. -/
def buildTemplateQuery (search category : Option String) (t : Template) : Bool :=
  (if jsTruthyStr search then
      regexIMatch t.name (search.getD "") || regexIMatch t.category (search.getD "")
    else true) &&
  (if jsTruthyStr category then t.category.toList == lowerList (category.getD "").toList
    else true)

/-- The module-level `templateCache` of `templateController.js:7-11`. -/
structure TemplateCache where
  lastUpdated : Option Nat
  data : Option (List Template)
  expiresIn : Nat
  deriving Repr, DecidableEq

/-- The initial cache value: `{ lastUpdated: null, data: null, expiresIn: 15*60*1000 }`. -/
def initialCache : TemplateCache :=
  { lastUpdated := none, data := none, expiresIn := 15 * 60 * 1000 }

/-- The cache-hit test of `templateController.js:22-23`:
`templateCache.data && templateCache.lastUpdated && (Date.now() - lastUpdated) < expiresIn`. -/
def cacheFresh (now : Nat) (c : TemplateCache) : Bool :=
  c.data.isSome && jsTruthyTime c.lastUpdated &&
    decide (now - c.lastUpdated.getD 0 < c.expiresIn)

/-- A `next`/`previous` page descriptor produced by `paginateResults`. -/
structure PageRef where
  page : Int
  limit : Int
  deriving Repr, DecidableEq

/-- The pagination metadata object `{currentPage, totalPages, totalTemplates, limit}`. -/
structure PaginationMeta where
  currentPage : Int
  totalPages : Nat
  totalTemplates : Nat
  limit : Int
  deriving Repr, DecidableEq

/-- A template-listing response body; absent JSON fields are `none`. -/
structure ListBody where
  success : Bool
  message : Option String
  templates : Option (List TemplateJson)
  next : Option PageRef
  previous : Option PageRef
  pagination : Option PaginationMeta
  deriving Repr, DecidableEq

/-- An HTTP response: status code plus JSON body. -/
structure ListResponse where
  status : Nat
  body : ListBody
  deriving Repr, DecidableEq

/-- `paginateResults(data, page, limit)` (`templateController.js:124-155`):
slices `[(page-1)*limit, page*limit)` out of the full cached snapshot, attaches
`next` when the slice ends before the data does and `previous` when it starts
after index 0, and computes metadata from `data.length`. -/
def paginateResults (data : List Template) (page limit : Int) : ListBody :=
  let startIndex := (page - 1) * limit
  let endIndex := page * limit
  { success := true
    message := none
    templates := some ((jsSlice data startIndex endIndex).map Template.toFullJson)
    next := if endIndex < (data.length : Int) then some ⟨page + 1, limit⟩ else none
    previous := if startIndex > 0 then some ⟨page - 1, limit⟩ else none
    pagination := some
      { currentPage := page
        totalPages := ceilDiv data.length limit.toNat
        totalTemplates := data.length
        limit := limit } }

/-- One record of the external ImgFlip payload (`{id, name, url, width, height, box_count}`). -/
structure ImgFlipMeme where
  id : String
  name : String
  url : String
  width : Nat
  height : Nat
  boxCount : Nat
  deriving Repr, DecidableEq

/-- `seedTemplatesFromImgFlip` (`templateController.js:82-105`): on fetch
success, maps each external record into the Template shape (default category
`"popular"`, random initial popularity in `[0,1000)`, `createdAt` defaulting to
the current time) and returns the bulk-insert payload; on fetch failure or
timeout it rethrows, so nothing is inserted. -/
def seedTemplatesFromImgFlip (now : Nat) (rand : Nat → Nat)
    (fetch : Except Unit (List ImgFlipMeme)) : Except Unit (List Template) :=
  match fetch with
  | .error e => .error e
  | .ok memes => .ok <| memes.mapIdx fun i m =>
      { templateId := m.id, name := m.name, url := m.url
        width := m.width, height := m.height
        category := "popular", boxCount := m.boxCount
        popularity := ((rand i) % 1000 : Nat)
        createdAt := now }

/-- `checkDatabaseSeed` (`templateController.js:77-80`): seed iff the template
collection holds zero records. -/
def checkDatabaseSeed (store : List Template) : Bool :=
  store.length == 0

/-- The mutable server state the listing endpoint touches: the persistent
template collection and the process-wide cache. -/
structure ListState where
  store : List Template
  cache : TemplateCache
  deriving Repr, DecidableEq

/-- The query string of a listing request; `page`/`limit` hold the `parseInt`
result (`none` = `NaN`), `search`/`category` the raw optional strings. -/
structure ListQuery where
  page : Option Int
  limit : Option Int
  search : Option String
  category : Option String
  deriving Repr, DecidableEq

/-- The 500 body of the controller's catch branch (`templateController.js:67-71`). -/
def fetchFailedBody : ListBody :=
  { success := false, message := some "Failed to fetch templates"
    templates := none, next := none, previous := none, pagination := none }

/-- `exports.getTemplates` (`templateController.js:14-73`), returning the
response together with the post-request state.  Faithful shape: (1) parse
`page`/`limit` (`|| 1`, `Math.min(_ || 20, 100)`); (2) if the cache is fresh,
answer from `paginateResults` over the cached snapshot — note the check does
NOT consult `search`/`category`; (3) otherwise seed when the store is empty
(a fetch failure propagates to the catch branch: 500, no state change);
(4) run the filtered, sorted, skipped, limited, projected read and the filtered
count; (5) overwrite the cache with `Template.find(query).lean()` — the
FILTERED, unprojected, unsorted result; (6) respond with items plus metadata. -/
def getTemplates (now : Nat) (rand : Nat → Nat)
    (fetch : Except Unit (List ImgFlipMeme))
    (st : ListState) (q : ListQuery) : ListResponse × ListState :=
  let page := jsOr q.page 1
  let limit := min (jsOr q.limit 20) 100
  let skip := (page - 1) * limit
  if cacheFresh now st.cache then
    ({ status := 200, body := paginateResults (st.cache.data.getD []) page limit }, st)
  else
    let seeded : Except Unit (List Template) :=
      if checkDatabaseSeed st.store then seedTemplatesFromImgFlip now rand fetch
      else .ok []
    match seeded with
    | .error _ => ({ status := 500, body := fetchFailedBody }, st)
    | .ok newDocs =>
      let store := st.store ++ newDocs
      let query := buildTemplateQuery q.search q.category
      let matching := store.filter query
      let templates :=
        ((sortByPopCreated matching).drop skip.toNat).take limit.toNat
      let total := matching.length
      let cache : TemplateCache :=
        { lastUpdated := some now, data := some matching, expiresIn := 15 * 60 * 1000 }
      ({ status := 200
         body :=
           { success := true
             message := none
             templates := some (templates.map Template.toSelectedJson)
             next := none
             previous := none
             pagination := some
               { currentPage := page
                 totalPages := ceilDiv total limit.toNat
                 totalTemplates := total
                 limit := limit } } },
       { store := store, cache := cache })

/-! ### Parameter parsing of the two listing handlers

The controller (`templateController.js:16-17`) and the route-level handler
(`templateRoutes.js:131-132`) parse `page`/`limit` differently: the former only
caps `limit` above, the latter also clamps both from below. -/

/-- `const page = parseInt(req.query.page) || 1` (`templateController.js:16`). -/
def ctrlParsePage (p : Option Int) : Int := jsOr p 1

/-- `const limit = Math.min(parseInt(req.query.limit) || 20, 100)`
(`templateController.js:17`). -/
def ctrlParseLimit (l : Option Int) : Int := min (jsOr l 20) 100

/-- `const pageNum = Math.max(parseInt(page) || 1, 1)` (`templateRoutes.js:131`). -/
def routeParsePage (p : Option Int) : Int := max (jsOr p 1) 1

/-- `const limitNum = Math.min(Math.max(parseInt(limit) || 20, 1), 100)`
(`templateRoutes.js:132`). -/
def routeParseLimit (l : Option Int) : Int := min (max (jsOr l 20) 1) 100

/-! ### The meme like/unlike toggle -/

/-- JavaScript `Array.prototype.indexOf`: index of the first occurrence, with
`none` standing for `-1`.  (Mongoose arrays compare ObjectIds by value.) -/
def jsIndexOf (a : Nat) : List Nat → Option Nat
  | [] => none
  | b :: l => if b == a then some 0 else (jsIndexOf a l).map (· + 1)

/-- A stored Meme document, mirroring `memeSchema`: the schema declares `user`,
`template`, `imageUrl`, `texts`, `likes`, `createdAt` — and no `likesCount`
path, so only these fields survive a `save()`. -/
structure StoredMeme where
  user : Nat
  template : Nat
  imageUrl : String
  likes : List Nat
  createdAt : Nat
  deriving Repr, DecidableEq

/-- An in-memory meme document inside the like handler: the schema fields plus
the non-schema JS property `likesCount`, which is `undefined` (`none`) on every
freshly loaded document; JS arithmetic on `undefined` yields `NaN`, which stays
not-a-number, so `none` absorbs additions. -/
structure MemeDoc where
  stored : StoredMeme
  likesCount : Option Int
  deriving Repr, DecidableEq

/-- `Meme.findById`: materializes a document; `likesCount` is not a schema path,
so reading it gives `undefined`. -/
def loadMeme (s : StoredMeme) : MemeDoc :=
  { stored := s, likesCount := none }

/-- `meme.save()` under the (default) strict schema: only schema paths persist;
the ad-hoc `likesCount` property is dropped. -/
def saveMeme (d : MemeDoc) : StoredMeme := d.stored

/-- JS `v + d` where `v` may be `undefined`/`NaN`: not-a-number is absorbing. -/
def jsNumAdd (v : Option Int) (d : Int) : Option Int := v.map (· + d)

/-- The like handler's JSON reply `{success, action, likesCount}`;
`likesCount := none` models the `NaN` that serializes as `null`. -/
structure LikeResponse where
  success : Bool
  action : String
  likesCount : Option Int
  deriving Repr, DecidableEq

/-- `router.post('/:id/like')` (meme routes): loads the meme, tests
`meme.likes.indexOf(userId)`, and either pushes the user and does
`likesCount += 1` (action `liked`) or splices the user out and does
`likesCount -= 1` (action `unliked`), then saves.  One endpoint, toggle
semantics. -/
def likeHandler (userId : Nat) (s : StoredMeme) : StoredMeme × LikeResponse :=
  let meme := loadMeme s
  match jsIndexOf userId meme.stored.likes with
  | none =>
      let m : MemeDoc :=
        { stored := { meme.stored with likes := meme.stored.likes ++ [userId] }
          likesCount := jsNumAdd meme.likesCount 1 }
      (saveMeme m, { success := true, action := "liked", likesCount := m.likesCount })
  | some i =>
      let m : MemeDoc :=
        { stored := { meme.stored with likes := meme.stored.likes.eraseIdx i }
          likesCount := jsNumAdd meme.likesCount (-1) }
      (saveMeme m, { success := true, action := "unliked", likesCount := m.likesCount })

/-! ### The favorite toggle and the popularity counter -/

/-- A template as the favorite route sees it: identity, `popularity`
(schema default 0) and `status` (only `active` templates are favoritable). -/
structure FavTemplate where
  id : Nat
  popularity : Int
  status : String
  deriving Repr, DecidableEq

/-- A user document with its `favoriteTemplates` id list. -/
structure FavUser where
  id : Nat
  favoriteTemplates : List Nat
  deriving Repr, DecidableEq

/-- The store state the favorite route touches. -/
structure FavState where
  templates : List FavTemplate
  users : List FavUser
  deriving Repr, DecidableEq

/-- The favorite route's reply: status code, `success`, and the toggle `action`. -/
structure FavResponse where
  status : Nat
  success : Bool
  action : Option String
  deriving Repr, DecidableEq

/-- `Template.findByIdAndUpdate(templateId, { $inc: { popularity: delta } })`:
ids are unique in the store, so updating every matching record models the
single-document update. -/
def incPopularity (delta : Int) (tid : Nat) (ts : List FavTemplate) : List FavTemplate :=
  ts.map fun t => if t.id == tid then { t with popularity := t.popularity + delta } else t

/-- `user.save()`: writes the modified user document back by id. -/
def saveUser (u : FavUser) (us : List FavUser) : List FavUser :=
  us.map fun v => if v.id == u.id then u else v

/-- The `index === -1` branch of the favorite route: push the template onto
`user.favoriteTemplates`, save the user, and `$inc` the popularity by `+1`. -/
def favAdd (st : FavState) (user : FavUser) (tid : Nat) : FavState :=
  { templates := incPopularity 1 tid st.templates
    users := saveUser { user with favoriteTemplates := user.favoriteTemplates ++ [tid] } st.users }

/-- The `index !== -1` branch of the favorite route: splice the template out of
`user.favoriteTemplates` at index `i`, save the user, and `$inc` by `-1`. -/
def favRemove (st : FavState) (user : FavUser) (tid i : Nat) : FavState :=
  { templates := incPopularity (-1) tid st.templates
    users := saveUser { user with favoriteTemplates := user.favoriteTemplates.eraseIdx i } st.users }

/-- `router.post('/:id/favorite')` (`templateRoutes.js:296-369`): 404 unless an
`active` template with the id exists and the user is found; then toggles
membership of the template in `user.favoriteTemplates` via
`indexOf`/`push`/`splice` and correspondingly `$inc`s the template's
`popularity` by `+1` (`added`) or `-1` (`removed`). -/
def favoriteHandler (st : FavState) (uid tid : Nat) : FavState × FavResponse :=
  if !(st.templates.any fun t => t.id == tid && t.status == "active") then
    (st, { status := 404, success := false, action := none })
  else
    match st.users.find? (fun u => u.id == uid) with
    | none => (st, { status := 404, success := false, action := none })
    | some user =>
      match jsIndexOf tid user.favoriteTemplates with
      | none =>
        (favAdd st user tid, { status := 200, success := true, action := some "added" })
      | some i =>
        (favRemove st user tid i, { status := 200, success := true, action := some "removed" })

/-- Sequential execution of a list of `(userId, templateId)` favorite requests. -/
def applyFavorites (st : FavState) : List (Nat × Nat) → FavState
  | [] => st
  | (uid, tid) :: ops => applyFavorites (favoriteHandler st uid tid).1 ops

/-- Number of users currently holding `tid` in their favorites. -/
def favCountUsers (us : List FavUser) (tid : Nat) : Nat :=
  (us.filter fun u => u.favoriteTemplates.contains tid).length

/-- Inductive invariant of the favorite subsystem: user ids are unique, each
favorites list is duplicate-free, and each template's popularity dominates the
number of users currently favoriting it (true initially since favorites lists
start empty and popularity starts non-negative). -/
def FavInv (st : FavState) : Prop :=
  (st.users.map FavUser.id).Nodup ∧
  (∀ u ∈ st.users, u.favoriteTemplates.Nodup) ∧
  (∀ t ∈ st.templates, (favCountUsers st.users t.id : Int) ≤ t.popularity)

/-- Popularity of the template with id `tid` in a template list, if present. -/
def getPop (ts : List FavTemplate) (tid : Nat) : Option Int :=
  (ts.find? (fun t => t.id == tid)).map FavTemplate.popularity

/-! ### Concrete fixtures used to evaluate the model -/

/-- Fixture: a stored template in category `popular`. -/
def tAlpha : Template :=
  { templateId := "a", name := "Alpha", url := "u", width := 200, height := 200
    category := "popular", boxCount := 2, popularity := 5, createdAt := 10 }

/-- Fixture: a stored template in category `other`. -/
def tBeta : Template :=
  { templateId := "b", name := "Beta", url := "u", width := 200, height := 200
    category := "other", boxCount := 2, popularity := 3, createdAt := 20 }

/-- Fixture: a cache refreshed at time 1000 holding the two-template snapshot;
at `now = 1000` it is fresh (`0 < 900000`). -/
def freshCacheFx : TemplateCache :=
  { lastUpdated := some 1000, data := some [tAlpha, tBeta], expiresIn := 15 * 60 * 1000 }

/-- Fixture: the `i`-th of 25 matching records, with strictly decreasing
popularity so that the store sort returns them in index order. -/
def mkNth (i : Nat) : Template :=
  { templateId := toString i, name := toString i, url := "u", width := 200, height := 200
    category := "popular", boxCount := 1, popularity := (100 : Int) - i, createdAt := i }

/-- Fixture: a store of 25 matching records. -/
def store25 : List Template := (List.range 25).map mkNth

/-- Fixture: a stored meme with no likes yet. -/
def memeFx : StoredMeme :=
  { user := 1, template := 1, imageUrl := "img", likes := [], createdAt := 0 }

/-- Fixture: one active zero-popularity template and one user with no favorites. -/
def favFx : FavState :=
  { templates := [{ id := 1, popularity := 0, status := "active" }]
    users := [{ id := 9, favoriteTemplates := [] }] }

/-! ### Path lemmas for `getTemplates` -/

/-- The store-bound (cache-miss, seeding-done) result of `getTemplates`, as a
function of the post-seeding store contents. -/
def missResult (now : Nat) (store : List Template) (q : ListQuery) :
    ListResponse × ListState :=
  let page := jsOr q.page 1
  let limit := min (jsOr q.limit 20) 100
  let skip := (page - 1) * limit
  let matching := store.filter (buildTemplateQuery q.search q.category)
  ({ status := 200
     body :=
       { success := true
         message := none
         templates := some
           ((((sortByPopCreated matching).drop skip.toNat).take limit.toNat).map
             Template.toSelectedJson)
         next := none
         previous := none
         pagination := some
           { currentPage := page
             totalPages := ceilDiv matching.length limit.toNat
             totalTemplates := matching.length
             limit := limit } } },
   { store := store
     cache := { lastUpdated := some now, data := some matching, expiresIn := 15 * 60 * 1000 } })

theorem getTemplates_cacheHit (now : Nat) (rand : Nat → Nat)
    (fetch : Except Unit (List ImgFlipMeme)) (st : ListState) (q : ListQuery)
    (h : cacheFresh now st.cache = true) :
    getTemplates now rand fetch st q =
      ({ status := 200
         body := paginateResults (st.cache.data.getD []) (jsOr q.page 1)
                   (min (jsOr q.limit 20) 100) }, st) := by
  simp [getTemplates, h]

theorem getTemplates_missErr (now : Nat) (rand : Nat → Nat)
    (fetch : Except Unit (List ImgFlipMeme)) (st : ListState) (q : ListQuery)
    (e : Unit) (h : cacheFresh now st.cache = false)
    (hseed : (if checkDatabaseSeed st.store then seedTemplatesFromImgFlip now rand fetch
              else Except.ok []) = Except.error e) :
    getTemplates now rand fetch st q = ({ status := 500, body := fetchFailedBody }, st) := by
  simp only [getTemplates, h, Bool.false_eq_true, if_false, hseed]

theorem getTemplates_missOk (now : Nat) (rand : Nat → Nat)
    (fetch : Except Unit (List ImgFlipMeme)) (st : ListState) (q : ListQuery)
    (newDocs : List Template) (h : cacheFresh now st.cache = false)
    (hseed : (if checkDatabaseSeed st.store then seedTemplatesFromImgFlip now rand fetch
              else Except.ok []) = Except.ok newDocs) :
    getTemplates now rand fetch st q = missResult now (st.store ++ newDocs) q := by
  simp only [getTemplates, h, Bool.false_eq_true, if_false, hseed, missResult]

/-! ### Helper lemmas -/

theorem jsOr_some_of_ne (n d : Int) (h : n ≠ 0) : jsOr (some n) d = n := by
  simp [jsOr, h]

theorem length_jsSlice_le (l : List α) (s e : Int) (hs : 0 ≤ s) (hse : s ≤ e) :
    (jsSlice l s e).length ≤ (e - s).toNat := by
  have he : 0 ≤ e := le_trans hs hse
  simp only [jsSlice, jsSliceIdx, if_neg (not_lt.mpr hs), if_neg (not_lt.mpr he),
    List.length_drop, List.length_take]
  omega

theorem jsIndexOf_eq_none_iff (a : Nat) (l : List Nat) :
    jsIndexOf a l = none ↔ a ∉ l := by
  induction l with
  | nil => simp [jsIndexOf]
  | cons b t ih =>
    by_cases hb : b = a
    · simp [jsIndexOf, hb]
    · simp [jsIndexOf, hb, Option.map_eq_none', ih, Ne.symm hb]

theorem jsIndexOf_append_self (a : Nat) (l : List Nat) (h : a ∉ l) :
    jsIndexOf a (l ++ [a]) = some l.length := by
  induction l with
  | nil => simp [jsIndexOf]
  | cons b t ih =>
    have hb : b ≠ a := by rintro rfl; exact h (List.mem_cons_self _ _)
    have ht : a ∉ t := fun hm => h (List.mem_cons_of_mem _ hm)
    simp [jsIndexOf, hb, ih ht]

theorem eraseIdx_append_self (l : List Nat) (a : Nat) :
    (l ++ [a]).eraseIdx l.length = l := by
  induction l with
  | nil => simp
  | cons b t ih => simp [List.eraseIdx, ih]

theorem mem_of_jsIndexOf_eq_some {a : Nat} {l : List Nat} {i : Nat}
    (h : jsIndexOf a l = some i) : a ∈ l := by
  by_contra hm
  rw [(jsIndexOf_eq_none_iff a l).mpr hm] at h
  exact Option.noConfusion h

theorem not_mem_eraseIdx_of_jsIndexOf {a : Nat} {l : List Nat} {i : Nat}
    (hnd : l.Nodup) (h : jsIndexOf a l = some i) : a ∉ l.eraseIdx i := by
  induction l generalizing i with
  | nil => simp [jsIndexOf] at h
  | cons b t ih =>
    by_cases hb : b = a
    · subst hb
      simp only [jsIndexOf, beq_self_eq_true, if_true, Option.some.injEq] at h
      subst h
      simpa [List.eraseIdx] using (List.nodup_cons.mp hnd).1
    · simp only [jsIndexOf, beq_iff_eq, hb, if_false, Option.map_eq_some'] at h
      obtain ⟨j, hj, rfl⟩ := h
      simp only [List.eraseIdx, List.mem_cons, not_or]
      exact ⟨fun hab => hb hab.symm, ih (List.nodup_cons.mp hnd).2 hj⟩

theorem mem_eraseIdx_of_jsIndexOf {a : Nat} {l : List Nat} {i : Nat} (c : Nat)
    (h : jsIndexOf a l = some i) (hca : c ≠ a) : c ∈ l.eraseIdx i ↔ c ∈ l := by
  induction l generalizing i with
  | nil => simp [jsIndexOf] at h
  | cons b t ih =>
    by_cases hb : b = a
    · subst hb
      simp only [jsIndexOf, beq_self_eq_true, if_true, Option.some.injEq] at h
      subst h
      simp [List.eraseIdx, hca]
    · simp only [jsIndexOf, beq_iff_eq, hb, if_false, Option.map_eq_some'] at h
      obtain ⟨j, hj, rfl⟩ := h
      simp [List.eraseIdx, ih hj]

theorem length_eraseIdx_of_jsIndexOf {a : Nat} {l : List Nat} {i : Nat}
    (h : jsIndexOf a l = some i) : (l.eraseIdx i).length = l.length - 1 := by
  induction l generalizing i with
  | nil => simp [jsIndexOf] at h
  | cons b t ih =>
    by_cases hb : b = a
    · subst hb
      simp only [jsIndexOf, beq_self_eq_true, if_true, Option.some.injEq] at h
      subst h
      simp [List.eraseIdx]
    · simp only [jsIndexOf, beq_iff_eq, hb, if_false, Option.map_eq_some'] at h
      obtain ⟨j, hj, rfl⟩ := h
      have := mem_of_jsIndexOf_eq_some hj
      have ht : 1 ≤ t.length := List.length_pos.mpr (List.ne_nil_of_mem this)
      simp only [List.eraseIdx, List.length_cons, ih hj]
      omega

theorem contains_eq_true_iff (l : List Nat) (a : Nat) : l.contains a = true ↔ a ∈ l := by
  induction l with
  | nil => simp
  | cons b t ih => by_cases hb : b = a <;> simp [hb, ih]

theorem saveUser_map_id (u' : FavUser) (us : List FavUser) :
    (saveUser u' us).map FavUser.id = us.map FavUser.id := by
  induction us with
  | nil => rfl
  | cons v vs ih =>
    have hcons : saveUser u' (v :: vs)
        = (if (v.id == u'.id) = true then u' else v) :: saveUser u' vs := rfl
    rw [hcons, List.map_cons, ih, List.map_cons]
    congr 1
    by_cases hv : v.id = u'.id
    · rw [if_pos (by simp [hv]), hv]
    · rw [if_neg (by simp [hv])]

theorem mem_saveUser {w u' : FavUser} {us : List FavUser}
    (h : w ∈ saveUser u' us) : w = u' ∨ w ∈ us := by
  simp only [saveUser, List.mem_map] at h
  obtain ⟨v, hv, he⟩ := h
  by_cases hb : v.id = u'.id
  · simp only [hb, beq_self_eq_true, if_true] at he
    exact Or.inl he.symm
  · simp only [beq_iff_eq, hb, if_false] at he
    exact Or.inr (he ▸ hv)

theorem saveUser_eq_of_forall (u' : FavUser) (us : List FavUser)
    (h : ∀ w ∈ us, w.id ≠ u'.id) : saveUser u' us = us := by
  induction us with
  | nil => rfl
  | cons v vs ih =>
    have hv := h v (List.mem_cons_self _ _)
    simp only [saveUser, List.map_cons] at ih ⊢
    rw [if_neg (by simp [hv]), ih fun w hw => h w (List.mem_cons_of_mem _ hw)]

theorem filter_saveUser_length (p : FavUser → Bool) (us : List FavUser) (uid : Nat)
    (u0 u' : FavUser) (hnd : (us.map FavUser.id).Nodup)
    (hfind : us.find? (fun u => u.id == uid) = some u0) (hid : u'.id = uid) :
    ((saveUser u' us).filter p).length + (if p u0 then 1 else 0)
      = (us.filter p).length + (if p u' then 1 else 0) := by
  induction us with
  | nil => simp [List.find?] at hfind
  | cons v vs ih =>
    simp only [List.map_cons, List.nodup_cons] at hnd
    by_cases hv : v.id = uid
    · have hhit : (fun u => u.id == uid) v = true := by simp [hv]
      rw [show List.find? (fun u => u.id == uid) (v :: vs) = some v
            from List.find?_cons_of_pos _ hhit, Option.some.injEq] at hfind
      subst hfind
      have htail : ∀ w ∈ vs, w.id ≠ u'.id := by
        intro w hw he
        refine hnd.1 ?_
        have hvw : v.id = w.id := by rw [hv, ← hid, ← he]
        rw [hvw]
        exact List.mem_map_of_mem _ hw
      have hsv : saveUser u' (v :: vs) = u' :: vs := by
        simp only [saveUser, List.map_cons, if_pos (by simp [hv, hid] : (v.id == u'.id) = true)]
        have := saveUser_eq_of_forall u' vs htail
        simp only [saveUser] at this
        rw [this]
      rw [hsv]
      simp only [List.filter_cons]
      by_cases hpv : p v <;> by_cases hpu : p u' <;> simp [hpv, hpu]
    · have hmiss : ¬((fun u => u.id == uid) v = true) := by simp [hv]
      rw [show List.find? (fun u => u.id == uid) (v :: vs)
            = List.find? (fun u => u.id == uid) vs
            from List.find?_cons_of_neg _ hmiss] at hfind
      have hsv : saveUser u' (v :: vs) =
          v :: saveUser u' vs := by
        simp only [saveUser, List.map_cons,
          if_neg (by simp [hid, hv] : ¬((v.id == u'.id) = true))]
      rw [hsv]
      have := ih hnd.2 hfind
      simp only [List.filter_cons]
      by_cases hpv : p v <;> simp [hpv] <;> omega

theorem favCountUsers_saveUser (us : List FavUser) (uid tid : Nat) (u0 u' : FavUser)
    (hnd : (us.map FavUser.id).Nodup)
    (hfind : us.find? (fun u => u.id == uid) = some u0) (hid : u'.id = uid) :
    favCountUsers (saveUser u' us) tid
        + (if u0.favoriteTemplates.contains tid then 1 else 0)
      = favCountUsers us tid
        + (if u'.favoriteTemplates.contains tid then 1 else 0) :=
  filter_saveUser_length _ us uid u0 u' hnd hfind hid

theorem getPop_incPopularity (δ : Int) (tid : Nat) (ts : List FavTemplate) :
    getPop (incPopularity δ tid ts) tid = (getPop ts tid).map (· + δ) := by
  induction ts with
  | nil => rfl
  | cons t ts ih =>
    simp only [getPop] at ih ⊢
    by_cases ht : t.id = tid
    · have h1 : incPopularity δ tid (t :: ts)
          = { t with popularity := t.popularity + δ } :: incPopularity δ tid ts := by
        simp [incPopularity, ht]
      rw [h1,
        show List.find? (fun x => x.id == tid)
              ({ t with popularity := t.popularity + δ } :: incPopularity δ tid ts)
            = some { t with popularity := t.popularity + δ }
          from List.find?_cons_of_pos _ (by simp [ht]),
        show List.find? (fun x => x.id == tid) (t :: ts) = some t
          from List.find?_cons_of_pos _ (by simp [ht])]
      rfl
    · have h1 : incPopularity δ tid (t :: ts) = t :: incPopularity δ tid ts := by
        simp [incPopularity, ht]
      rw [h1,
        show List.find? (fun x => x.id == tid) (t :: incPopularity δ tid ts)
            = List.find? (fun x => x.id == tid) (incPopularity δ tid ts)
          from List.find?_cons_of_neg _ (by simp [ht]),
        show List.find? (fun x => x.id == tid) (t :: ts)
            = List.find? (fun x => x.id == tid) ts
          from List.find?_cons_of_neg _ (by simp [ht]),
        ih]

theorem contains_append_single (l : List Nat) (a c : Nat) (h : c ≠ a) :
    (l ++ [a]).contains c = l.contains c := by
  by_cases hm : c ∈ l
  · rw [(contains_eq_true_iff _ _).mpr hm,
        (contains_eq_true_iff _ _).mpr (List.mem_append_left _ hm)]
  · have h1 : l.contains c = false := by
      cases hb : l.contains c
      · rfl
      · exact absurd ((contains_eq_true_iff _ _).mp hb) hm
    have h2 : (l ++ [a]).contains c = false := by
      cases hb : (l ++ [a]).contains c
      · rfl
      · have := (contains_eq_true_iff _ _).mp hb
        rcases List.mem_append.mp this with hc | hc
        · exact absurd hc hm
        · simp at hc
          exact absurd hc h
    rw [h1, h2]

theorem contains_eraseIdx_of_ne {favs : List Nat} {tid i : Nat} (c : Nat)
    (hidx : jsIndexOf tid favs = some i) (hc : c ≠ tid) :
    (favs.eraseIdx i).contains c = favs.contains c := by
  have hiff := mem_eraseIdx_of_jsIndexOf c hidx hc
  by_cases hm : c ∈ favs
  · rw [(contains_eq_true_iff _ _).mpr hm, (contains_eq_true_iff _ _).mpr (hiff.mpr hm)]
  · have h1 : favs.contains c = false := by
      cases hb : favs.contains c
      · rfl
      · exact absurd ((contains_eq_true_iff _ _).mp hb) hm
    have h2 : (favs.eraseIdx i).contains c = false := by
      cases hb : (favs.eraseIdx i).contains c
      · rfl
      · exact absurd (hiff.mp ((contains_eq_true_iff _ _).mp hb)) hm
    rw [h1, h2]

theorem favInv_favAdd (st : FavState) (uid tid : Nat) (user : FavUser)
    (h : FavInv st) (hfind : st.users.find? (fun u => u.id == uid) = some user)
    (hidx : jsIndexOf tid user.favoriteTemplates = none) :
    FavInv (favAdd st user tid) := by
  obtain ⟨hids, hnds, hpop⟩ := h
  have hmemu : user ∈ st.users := List.mem_of_find?_eq_some hfind
  have huid' : user.id = uid := by simpa using List.find?_some hfind
  have hnotin : tid ∉ user.favoriteTemplates := (jsIndexOf_eq_none_iff _ _).mp hidx
  refine ⟨?_, ?_, ?_⟩
  · simpa [favAdd, saveUser_map_id] using hids
  · intro w hw
    rcases mem_saveUser hw with rfl | hw'
    · simpa [List.nodup_append, hnotin] using hnds user hmemu
    · exact hnds w hw'
  · intro t ht
    simp only [favAdd, incPopularity, List.mem_map] at ht
    obtain ⟨t0, ht0, rfl⟩ := ht
    have hcnt := favCountUsers_saveUser st.users uid t0.id user
      { user with favoriteTemplates := user.favoriteTemplates ++ [tid] } hids hfind huid'
    have hold := hpop t0 ht0
    by_cases htid : t0.id = tid
    · have hc0 : ¬(user.favoriteTemplates.contains t0.id = true) := by
        rw [htid]
        simpa [contains_eq_true_iff] using hnotin
      have hc1 : ({ user with favoriteTemplates := user.favoriteTemplates ++ [tid] } :
          FavUser).favoriteTemplates.contains t0.id = true := by
        rw [htid]
        simp [contains_eq_true_iff]
      rw [if_neg hc0, if_pos hc1] at hcnt
      rw [if_pos (by simp [htid])]
      show (favCountUsers (saveUser _ st.users) t0.id : Int) ≤ t0.popularity + 1
      omega
    · rw [show ({ user with favoriteTemplates := user.favoriteTemplates ++ [tid] } :
            FavUser).favoriteTemplates.contains t0.id
          = user.favoriteTemplates.contains t0.id
          from contains_append_single _ _ _ htid] at hcnt
      rw [if_neg (by simp [htid])]
      show (favCountUsers (saveUser _ st.users) t0.id : Int) ≤ t0.popularity
      omega

theorem favInv_favRemove (st : FavState) (uid tid : Nat) (user : FavUser) (i : Nat)
    (h : FavInv st) (hfind : st.users.find? (fun u => u.id == uid) = some user)
    (hidx : jsIndexOf tid user.favoriteTemplates = some i) :
    FavInv (favRemove st user tid i) := by
  obtain ⟨hids, hnds, hpop⟩ := h
  have hmemu : user ∈ st.users := List.mem_of_find?_eq_some hfind
  have huid' : user.id = uid := by simpa using List.find?_some hfind
  have hndfavs : user.favoriteTemplates.Nodup := hnds user hmemu
  refine ⟨?_, ?_, ?_⟩
  · simpa [favRemove, saveUser_map_id] using hids
  · intro w hw
    rcases mem_saveUser hw with rfl | hw'
    · exact (List.eraseIdx_sublist _ i).nodup hndfavs
    · exact hnds w hw'
  · intro t ht
    simp only [favRemove, incPopularity, List.mem_map] at ht
    obtain ⟨t0, ht0, rfl⟩ := ht
    have hcnt := favCountUsers_saveUser st.users uid t0.id user
      { user with favoriteTemplates := user.favoriteTemplates.eraseIdx i } hids hfind huid'
    have hold := hpop t0 ht0
    by_cases htid : t0.id = tid
    · have hc0 : user.favoriteTemplates.contains t0.id = true := by
        rw [htid]
        exact (contains_eq_true_iff _ _).mpr (mem_of_jsIndexOf_eq_some hidx)
      have hc1 : ¬(({ user with favoriteTemplates := user.favoriteTemplates.eraseIdx i } :
          FavUser).favoriteTemplates.contains t0.id = true) := by
        rw [htid]
        simpa [contains_eq_true_iff] using not_mem_eraseIdx_of_jsIndexOf hndfavs hidx
      rw [if_pos hc0, if_neg hc1] at hcnt
      rw [if_pos (by simp [htid])]
      show (favCountUsers (saveUser _ st.users) t0.id : Int) ≤ t0.popularity + (-1)
      omega
    · rw [show ({ user with favoriteTemplates := user.favoriteTemplates.eraseIdx i } :
            FavUser).favoriteTemplates.contains t0.id
          = user.favoriteTemplates.contains t0.id
          from contains_eraseIdx_of_ne _ hidx htid] at hcnt
      rw [if_neg (by simp [htid])]
      show (favCountUsers (saveUser _ st.users) t0.id : Int) ≤ t0.popularity
      omega

theorem favInv_favoriteHandler (st : FavState) (uid tid : Nat) (h : FavInv st) :
    FavInv (favoriteHandler st uid tid).1 := by
  unfold favoriteHandler
  split
  · exact h
  · cases hfind : st.users.find? (fun u => u.id == uid) with
    | none => simp only [hfind]; exact h
    | some user =>
      simp only [hfind]
      cases hidx : jsIndexOf tid user.favoriteTemplates with
      | none =>
        simp only [hidx]
        exact favInv_favAdd st uid tid user h hfind hidx
      | some i =>
        simp only [hidx]
        exact favInv_favRemove st uid tid user i h hfind hidx

theorem favInv_applyFavorites (ops : List (Nat × Nat)) (st : FavState) (h : FavInv st) :
    FavInv (applyFavorites st ops) := by
  induction ops generalizing st with
  | nil => exact h
  | cons op ops ih =>
    cases op with
    | mk uid tid => exact ih _ (favInv_favoriteHandler st uid tid h)

theorem pop_nonneg_of_favInv (st : FavState) (h : FavInv st) :
    ∀ t ∈ st.templates, 0 ≤ t.popularity := fun t ht =>
  le_trans (Int.natCast_nonneg _) (h.2.2 t ht)

/-! ### Claim theorems -/

/-- C1: for every valid request with `page ≥ 1` and `limit ∈ [1,100]`, the
template-listing operation returns at most `limit` items and the `totalPages`
field of its pagination metadata equals `ceil(total/limit)`, where the reported
`total` on a store-bound (non-cached) call is the number of records matching
the request's filter in the final store. -/
theorem c1_listing_bounded_and_totalPages
    (now : Nat) (rand : Nat → Nat) (fetch : Except Unit (List ImgFlipMeme))
    (st : ListState) (q : ListQuery) (p lv : Int)
    (hpq : q.page = some p) (hp1 : 1 ≤ p)
    (hlq : q.limit = some lv) (hl1 : 1 ≤ lv) (hl100 : lv ≤ 100) :
    (∀ ts, (getTemplates now rand fetch st q).1.body.templates = some ts →
        ts.length ≤ lv.toNat) ∧
    (∀ pg, (getTemplates now rand fetch st q).1.body.pagination = some pg →
        pg.totalPages = ceilDiv pg.totalTemplates lv.toNat
          ∧ pg.limit = lv ∧ pg.currentPage = p) ∧
    (cacheFresh now st.cache = false →
      ∀ pg, (getTemplates now rand fetch st q).1.body.pagination = some pg →
        pg.totalTemplates = ((getTemplates now rand fetch st q).2.store.filter
          (buildTemplateQuery q.search q.category)).length) := by
  have hp0 : p ≠ 0 := by omega
  have hl0 : lv ≠ 0 := by omega
  have hpage : jsOr q.page 1 = p := by rw [hpq]; exact jsOr_some_of_ne _ _ hp0
  have hlimit : min (jsOr q.limit 20) 100 = lv := by
    rw [hlq, jsOr_some_of_ne _ _ hl0]
    exact min_eq_left hl100
  by_cases hc : cacheFresh now st.cache
  · rw [getTemplates_cacheHit now rand fetch st q hc, hpage, hlimit]
    refine ⟨?_, ?_, ?_⟩
    · intro ts hts
      simp only [paginateResults, Option.some.injEq] at hts
      subst hts
      rw [List.length_map]
      have h0 : (0 : Int) ≤ (p - 1) * lv := mul_nonneg (by omega) (by omega)
      have hse : (p - 1) * lv ≤ p * lv :=
        mul_le_mul_of_nonneg_right (by omega) (by omega)
      have hle := length_jsSlice_le (st.cache.data.getD []) ((p - 1) * lv) (p * lv) h0 hse
      have heq : p * lv - (p - 1) * lv = lv := by ring
      rw [heq] at hle
      exact hle
    · intro pg hpg
      simp only [paginateResults, Option.some.injEq] at hpg
      subst hpg
      exact ⟨rfl, rfl, rfl⟩
    · intro hfresh
      simp [hc] at hfresh
  · have hc' : cacheFresh now st.cache = false := by simpa using hc
    cases hseed : (if checkDatabaseSeed st.store then seedTemplatesFromImgFlip now rand fetch
        else Except.ok []) with
    | error e =>
      rw [getTemplates_missErr now rand fetch st q e hc' hseed]
      refine ⟨?_, ?_, ?_⟩
      · intro ts hts
        simp [fetchFailedBody] at hts
      · intro pg hpg
        simp [fetchFailedBody] at hpg
      · intro _ pg hpg
        simp [fetchFailedBody] at hpg
    | ok newDocs =>
      rw [getTemplates_missOk now rand fetch st q newDocs hc' hseed]
      simp only [missResult, hpage, hlimit]
      refine ⟨?_, ?_, ?_⟩
      · intro ts hts
        simp only [Option.some.injEq] at hts
        subst hts
        rw [List.length_map]
        exact List.length_take_le _ _
      · intro pg hpg
        simp only [Option.some.injEq] at hpg
        subst hpg
        exact ⟨rfl, rfl, rfl⟩
      · intro _ pg hpg
        simp only [Option.some.injEq] at hpg
        subst hpg
        rfl

/-- C1 witness: 25 matching records, `listTemplates(page 2, limit 10)` returns
the 11th through 20th records of the sorted collection, `totalPages = 3`, and
the theorem's bound instantiates at this input. -/
theorem c1_listing_bounded_and_totalPages_witness :
    (((getTemplates 0 (fun _ => 0) (Except.ok []) ⟨store25, initialCache⟩
        ⟨some 2, some 10, none, none⟩).1.body.templates.getD []).length ≤ (10 : Int).toNat) ∧
    (getTemplates 0 (fun _ => 0) (Except.ok []) ⟨store25, initialCache⟩
        ⟨some 2, some 10, none, none⟩).1.body.pagination = some ⟨2, 3, 25, 10⟩ ∧
    ((getTemplates 0 (fun _ => 0) (Except.ok []) ⟨store25, initialCache⟩
        ⟨some 2, some 10, none, none⟩).1.body.templates.getD []).map TemplateJson.name
      = [some "10", some "11", some "12", some "13", some "14",
         some "15", some "16", some "17", some "18", some "19"] := by
  refine ⟨?_, by decide, by decide⟩
  exact (c1_listing_bounded_and_totalPages 0 (fun _ => 0) (Except.ok [])
      ⟨store25, initialCache⟩ ⟨some 2, some 10, none, none⟩ 2 10
      rfl (by decide) rfl (by decide) (by decide)).1 _ (by decide)

/-- C2 (bug evidence): with a fresh cache, `getTemplates` serves a request
carrying `search = "zzz"` straight from the cached snapshot — at this input no
stored record matches the search, yet the response returns both cached records
in full, so the cache is NOT bypassed when a filter is present. -/
theorem c2_fresh_cache_serves_filtered_request :
    cacheFresh 1000 freshCacheFx = true ∧
    ([tAlpha, tBeta].filter (buildTemplateQuery (some "zzz") none)).length = 0 ∧
    (getTemplates 1000 (fun _ => 0) (Except.ok []) ⟨[tAlpha, tBeta], freshCacheFx⟩
        ⟨none, none, some "zzz", none⟩).1.status = 200 ∧
    (getTemplates 1000 (fun _ => 0) (Except.ok []) ⟨[tAlpha, tBeta], freshCacheFx⟩
        ⟨none, none, some "zzz", none⟩).1.body.templates
      = some [tAlpha.toFullJson, tBeta.toFullJson] := by decide

/-- C3 (bug evidence): on a non-cached call carrying `category = "popular"`,
`getTemplates` refreshes the Freshness Cache with `Template.find(query)` —
the FILTERED result (here the single matching record), not an unfiltered full
read of the two-record collection. -/
theorem c3_cache_refreshed_with_filtered_read :
    cacheFresh 1000 initialCache = false ∧
    (getTemplates 1000 (fun _ => 0) (Except.ok []) ⟨[tAlpha, tBeta], initialCache⟩
        ⟨none, none, none, some "popular"⟩).2.store = [tAlpha, tBeta] ∧
    (getTemplates 1000 (fun _ => 0) (Except.ok []) ⟨[tAlpha, tBeta], initialCache⟩
        ⟨none, none, none, some "popular"⟩).2.cache.data = some [tAlpha] ∧
    [tAlpha] ≠ [tAlpha, tBeta] := by decide

/-- C4: for the same underlying data snapshot and identical `(page, limit)`,
the pagination metadata produced by the cached in-memory path equals the
metadata produced by the store-bound path: whenever the fresh cache holds a
snapshot of the same cardinality as the store's matching set (in particular,
the matching set itself), the two `pagination` objects coincide. -/
theorem c4_pagination_metadata_agree
    (now₁ now₂ : Nat) (rand : Nat → Nat) (fetch : Except Unit (List ImgFlipMeme))
    (store d : List Template) (c₁ c₂ : TemplateCache) (q : ListQuery)
    (hfresh : cacheFresh now₁ c₁ = true) (hdata : c₁.data = some d)
    (hstale : cacheFresh now₂ c₂ = false)
    (hne : store.length ≠ 0)
    (hlen : d.length = (store.filter (buildTemplateQuery q.search q.category)).length) :
    (getTemplates now₁ rand fetch ⟨store, c₁⟩ q).1.body.pagination
      = (getTemplates now₂ rand fetch ⟨store, c₂⟩ q).1.body.pagination := by
  have hseed : (if checkDatabaseSeed store then seedTemplatesFromImgFlip now₂ rand fetch
      else Except.ok []) = Except.ok [] := by
    simp [checkDatabaseSeed, hne]
  rw [getTemplates_cacheHit now₁ rand fetch ⟨store, c₁⟩ q hfresh,
      getTemplates_missOk now₂ rand fetch ⟨store, c₂⟩ q [] hstale hseed]
  simp only [missResult, paginateResults, List.append_nil]
  rw [show (⟨store, c₁⟩ : ListState).cache.data.getD [] = d from by rw [hdata]; rfl]
  rw [hlen]

/-- C4 witness: a fresh cache holding the two-record snapshot (in a different
order than the store) and a store-bound read over the same two records produce
the same `pagination` object. -/
theorem c4_pagination_metadata_agree_witness :
    (getTemplates 1000 (fun _ => 0) (Except.ok [])
        ⟨[tAlpha, tBeta], { lastUpdated := some 1000, data := some [tBeta, tAlpha],
                            expiresIn := 15 * 60 * 1000 }⟩
        ⟨none, none, none, none⟩).1.body.pagination
      = (getTemplates 2000000 (fun _ => 0) (Except.ok []) ⟨[tAlpha, tBeta], initialCache⟩
        ⟨none, none, none, none⟩).1.body.pagination :=
  c4_pagination_metadata_agree 1000 2000000 (fun _ => 0) (Except.ok [])
    [tAlpha, tBeta] [tBeta, tAlpha]
    { lastUpdated := some 1000, data := some [tBeta, tAlpha], expiresIn := 15 * 60 * 1000 }
    initialCache ⟨none, none, none, none⟩
    (by decide) (by decide) (by decide) (by decide) (by decide)

/-- C5 (counterexample): the controller's parsing does NOT clamp a negative
numeric `page` to 1, nor a negative numeric `limit` into `[1,100]`:
`parseInt("-3") || 1` evaluates to `-3` and `Math.min(parseInt("-5") || 20, 100)`
to `-5`. -/
theorem c5_controller_does_not_clamp_below :
    ctrlParsePage (some (-3)) = -3 ∧ ctrlParsePage (some (-3)) ≠ 1 ∧
    ctrlParseLimit (some (-5)) = -5 ∧ ¬(1 ≤ ctrlParseLimit (some (-5))) := by decide

/-- C5 (amended): invalid `page`/`limit` are never rejected by either listing
handler's parsing.  The route-level handler fully clamps: `page < 1 → 1`,
`limit` into `[1,100]`, non-numeric → defaults.  The controller maps
non-numeric and `0` to the defaults and caps `limit` above at 100, but passes
any negative numeric `page` or `limit` through unclamped. -/
theorem c5_clamping_amended (pv lv : Option Int) (n : Int) (hn : n < 0) :
    1 ≤ routeParsePage pv ∧
    1 ≤ routeParseLimit lv ∧ routeParseLimit lv ≤ 100 ∧
    routeParsePage none = 1 ∧ routeParseLimit none = 20 ∧
    ctrlParsePage none = 1 ∧ ctrlParseLimit none = 20 ∧
    ctrlParsePage (some 0) = 1 ∧ ctrlParseLimit (some 0) = 20 ∧
    ctrlParseLimit lv ≤ 100 ∧
    ctrlParsePage (some n) = n ∧ ctrlParseLimit (some n) = n := by
  have hn0 : n ≠ 0 := by omega
  refine ⟨le_max_right _ _, ?_, ?_, by decide, by decide, by decide, by decide,
    by decide, by decide, ?_, ?_, ?_⟩
  · exact le_trans (by decide) (min_le_min_right 100 (le_max_right _ 1))
  · exact min_le_right _ _
  · exact min_le_right _ _
  · simp [ctrlParsePage, jsOr, hn0]
  · simp only [ctrlParseLimit, jsOr, if_neg hn0]
    omega

/-- C5 witness: the amended clamping facts instantiated at the concrete inputs
`page = "-3"`, `limit = "-5"`. -/
theorem c5_clamping_amended_witness :
    1 ≤ routeParsePage (some (-3)) ∧ ctrlParsePage (some (-3)) = -3 :=
  ⟨(c5_clamping_amended (some (-3)) (some (-5)) (-3) (by decide)).1,
   (c5_clamping_amended (some (-3)) (some (-5)) (-3) (by decide)).2.2.2.2.2.2.2.2.2.2.1⟩

/-- C6: if the external template fetch fails during seeding, the triggering
listing request returns `success:false` with status 500, the template store
stays empty and the cache untouched (seeding aborted before any insert), and a
later listing request attempts seeding again — succeeding once the fetch does. -/
theorem c6_seed_failure_aborts_and_retries
    (now now₂ : Nat) (rand rand₂ : Nat → Nat) (st : ListState) (q q₂ : ListQuery)
    (memes : List ImgFlipMeme) (seededDocs : List Template)
    (hempty : st.store = []) (hmiss : cacheFresh now st.cache = false)
    (hmiss₂ : cacheFresh now₂ st.cache = false)
    (hseed : seedTemplatesFromImgFlip now₂ rand₂ (Except.ok memes) = Except.ok seededDocs) :
    (getTemplates now rand (Except.error ()) st q).1.status = 500 ∧
    (getTemplates now rand (Except.error ()) st q).1.body.success = false ∧
    (getTemplates now rand (Except.error ()) st q).2 = st ∧
    checkDatabaseSeed (getTemplates now rand (Except.error ()) st q).2.store = true ∧
    (getTemplates now₂ rand₂ (Except.ok memes)
        (getTemplates now rand (Except.error ()) st q).2 q₂).2.store = seededDocs := by
  have hchk : checkDatabaseSeed st.store = true := by simp [checkDatabaseSeed, hempty]
  have hfail : (if checkDatabaseSeed st.store then
      seedTemplatesFromImgFlip now rand (Except.error ()) else Except.ok [])
        = Except.error () := by
    rw [if_pos hchk]
    rfl
  rw [getTemplates_missErr now rand (Except.error ()) st q () hmiss hfail]
  have hok : (if checkDatabaseSeed st.store then
      seedTemplatesFromImgFlip now₂ rand₂ (Except.ok memes) else Except.ok [])
        = Except.ok seededDocs := by
    rw [if_pos hchk, hseed]
  rw [getTemplates_missOk now₂ rand₂ (Except.ok memes) st q₂ seededDocs hmiss₂ hok]
  refine ⟨rfl, rfl, rfl, hchk, ?_⟩
  simp [missResult, hempty]

/-- C6 witness: the failure-then-retry behaviour at a concrete empty store,
failing fetch, and a later successful one-meme fetch. -/
theorem c6_seed_failure_aborts_and_retries_witness :
    (getTemplates 0 (fun _ => 0) (Except.error ()) ⟨[], initialCache⟩
        ⟨none, none, none, none⟩).1.status = 500 ∧
    (getTemplates 5 (fun _ => 0)
        (Except.ok [{ id := "x", name := "X", url := "u", width := 200, height := 200,
                      boxCount := 2 }])
        (getTemplates 0 (fun _ => 0) (Except.error ()) ⟨[], initialCache⟩
          ⟨none, none, none, none⟩).2 ⟨none, none, none, none⟩).2.store
      = [{ templateId := "x", name := "X", url := "u", width := 200, height := 200,
           category := "popular", boxCount := 2, popularity := 0, createdAt := 5 }] := by
  have h := c6_seed_failure_aborts_and_retries 0 5 (fun _ => 0) (fun _ => 0)
    ⟨[], initialCache⟩ ⟨none, none, none, none⟩ ⟨none, none, none, none⟩
    [{ id := "x", name := "X", url := "u", width := 200, height := 200, boxCount := 2 }]
    [{ templateId := "x", name := "X", url := "u", width := 200, height := 200,
       category := "popular", boxCount := 2, popularity := 0, createdAt := 5 }]
    rfl (by decide) (by decide) rfl
  exact ⟨h.1, h.2.2.2.2⟩

/-- C7 (counterexample): calling the like endpoint twice on the same meme by
the same user does NOT change the like count by 1 in total — the second call is
an unlike under the endpoint's toggle semantics, so the like set returns to its
original size (net change 0), and no numeric `likesCount` is ever produced
(the schema has no such field, so the handler's arithmetic starts from
`undefined`). -/
theorem c7_like_twice_nets_zero :
    memeFx.likes.length = 0 ∧
    (likeHandler 7 (likeHandler 7 memeFx).1).1.likes.length = 0 ∧
    ¬((likeHandler 7 (likeHandler 7 memeFx).1).1.likes.length = memeFx.likes.length + 1) ∧
    (likeHandler 7 (likeHandler 7 memeFx).1).2.action = "unliked" ∧
    (likeHandler 7 memeFx).2.likesCount = none := by decide

/-- C7 (amended): the like endpoint is a toggle.  One call by a user not in the
meme's like set adds them, increasing the like-set size by exactly 1; one
subsequent call by the same user (the unlike) restores the original like list,
and hence the original count.  The `likesCount` reported by the handler is
never a number, since the meme schema defines no such field. -/
theorem c7_like_toggle_amended (s : StoredMeme) (u : Nat) (h : u ∉ s.likes) :
    (likeHandler u s).1.likes.length = s.likes.length + 1 ∧
    (likeHandler u s).2.action = "liked" ∧
    (likeHandler u (likeHandler u s).1).1.likes = s.likes ∧
    (likeHandler u (likeHandler u s).1).2.action = "unliked" ∧
    (likeHandler u s).2.likesCount = none ∧
    (likeHandler u (likeHandler u s).1).2.likesCount = none := by
  have h1 : jsIndexOf u s.likes = none := (jsIndexOf_eq_none_iff u s.likes).mpr h
  have hstep : (likeHandler u s).1 = { s with likes := s.likes ++ [u] } := by
    simp [likeHandler, loadMeme, saveMeme, h1]
  have h2 : jsIndexOf u (s.likes ++ [u]) = some s.likes.length :=
    jsIndexOf_append_self u s.likes h
  refine ⟨?_, ?_, ?_, ?_, ?_, ?_⟩
  · rw [hstep]
    simp
  · simp [likeHandler, loadMeme, saveMeme, h1]
  · rw [hstep]
    simp [likeHandler, loadMeme, saveMeme, h2, eraseIdx_append_self]
  · rw [hstep]
    simp [likeHandler, loadMeme, saveMeme, h2]
  · simp [likeHandler, loadMeme, saveMeme, h1, jsNumAdd]
  · rw [hstep]
    simp [likeHandler, loadMeme, saveMeme, h2, jsNumAdd]

/-- C7 witness: the amended toggle facts at a concrete meme and user. -/
theorem c7_like_toggle_amended_witness :
    (likeHandler 7 memeFx).1.likes.length = memeFx.likes.length + 1 ∧
    (likeHandler 7 (likeHandler 7 memeFx).1).1.likes = memeFx.likes :=
  ⟨(c7_like_toggle_amended memeFx 7 (by decide)).1,
   (c7_like_toggle_amended memeFx 7 (by decide)).2.2.1⟩

/-- C8 (bug evidence): after a like mutation the meme's like list is `[7]`
(duplicate-free), but no stored `likesCount` exists to equal `likes.length`:
the schema defines no `likesCount` path, so a reloaded document reads
`undefined` there, and the handler's own reply carries the non-number produced
by `undefined + 1`. -/
theorem c8_no_stored_likesCount :
    (likeHandler 7 memeFx).1.likes = [7] ∧
    (likeHandler 7 memeFx).1.likes.Nodup ∧
    (loadMeme (likeHandler 7 memeFx).1).likesCount = none ∧
    (likeHandler 7 memeFx).2.likesCount = none ∧
    (loadMeme (likeHandler 7 memeFx).1).likesCount
      ≠ some ((likeHandler 7 memeFx).1.likes.length : Int) := by decide

/-- C9: a favorite request that adds the template increments its popularity by
exactly 1, one that removes it decrements by exactly 1, and from any state
satisfying the favorite-subsystem invariant (favorites lists duplicate-free,
ids unique, popularity dominating the favoriting-user count — in particular any
initial state with empty favorites lists and non-negative popularities), every
template's popularity stays non-negative under any sequence of favorite
requests. -/
theorem c9_favorite_popularity (st : FavState) (h : FavInv st) :
    (∀ uid tid user,
      (st.templates.any fun t => t.id == tid && t.status == "active") = true →
      st.users.find? (fun u => u.id == uid) = some user →
      ((jsIndexOf tid user.favoriteTemplates = none →
          getPop (favoriteHandler st uid tid).1.templates tid
            = (getPop st.templates tid).map (· + 1) ∧
          (favoriteHandler st uid tid).2.action = some "added") ∧
       (∀ i, jsIndexOf tid user.favoriteTemplates = some i →
          getPop (favoriteHandler st uid tid).1.templates tid
            = (getPop st.templates tid).map (· + (-1)) ∧
          (favoriteHandler st uid tid).2.action = some "removed"))) ∧
    (∀ ops : List (Nat × Nat),
      ∀ t ∈ (applyFavorites st ops).templates, 0 ≤ t.popularity) := by
  constructor
  · intro uid tid user hact hfind
    constructor
    · intro hidx
      have hred : favoriteHandler st uid tid
          = (favAdd st user tid,
             { status := 200, success := true, action := some "added" }) := by
        simp [favoriteHandler, hact, hfind, hidx]
      rw [hred]
      exact ⟨getPop_incPopularity 1 tid st.templates, rfl⟩
    · intro i hidx
      have hred : favoriteHandler st uid tid
          = (favRemove st user tid i,
             { status := 200, success := true, action := some "removed" }) := by
        simp [favoriteHandler, hact, hfind, hidx]
      rw [hred]
      exact ⟨getPop_incPopularity (-1) tid st.templates, rfl⟩
  · intro ops
    exact pop_nonneg_of_favInv _ (favInv_applyFavorites ops st h)

/-- C9 witness: favoriting the concrete template raises its popularity from 0
to 1, and popularity stays non-negative along a concrete toggle sequence. -/
theorem c9_favorite_popularity_witness :
    getPop (favoriteHandler favFx 9 1).1.templates 1 = some 1 ∧
    (∀ t ∈ (applyFavorites favFx [(9, 1), (9, 1), (9, 1)]).templates,
      0 ≤ t.popularity) := by
  have h := c9_favorite_popularity favFx ⟨by decide, by decide, by decide⟩
  refine ⟨?_, h.2 [(9, 1), (9, 1), (9, 1)]⟩
  have h1 := (h.1 9 1 ⟨9, []⟩ (by decide) (by decide)).1 (by decide)
  rw [h1.1]
  decide

/-- C10 (counterexample): a cache-hit response need not include next/previous
page descriptors — at page 1 of a snapshot that fits on one page, the fresh
cache serves a 200 response whose body has neither `next` nor `previous`. -/
theorem c10_hit_without_page_refs :
    cacheFresh 1000 freshCacheFx = true ∧
    (getTemplates 1000 (fun _ => 0) (Except.ok []) ⟨[tAlpha, tBeta], freshCacheFx⟩
        ⟨none, none, none, none⟩).1.status = 200 ∧
    (getTemplates 1000 (fun _ => 0) (Except.ok []) ⟨[tAlpha, tBeta], freshCacheFx⟩
        ⟨none, none, none, none⟩).1.body.next = none ∧
    (getTemplates 1000 (fun _ => 0) (Except.ok []) ⟨[tAlpha, tBeta], freshCacheFx⟩
        ⟨none, none, none, none⟩).1.body.previous = none := by decide

/-- C10 (amended): for fixed store contents and identical request parameters,
the response body depends on cache freshness: a cache-hit response carries
every stored field of each template and includes next/previous descriptors
exactly when a following/preceding page exists, while a cache-miss response
carries only the projected fields (no `popularity`, no `boxCount`) and never
includes next/previous — so two runs differing only in cache freshness return
different bodies whenever the data is non-empty. -/
theorem c10_fresh_vs_stale_body_amended
    (now₁ now₂ : Nat) (rand : Nat → Nat) (fetch : Except Unit (List ImgFlipMeme))
    (store : List Template) (c₁ c₂ : TemplateCache) (q : ListQuery) (p lv : Int)
    (hpq : q.page = some p) (hp1 : 1 ≤ p)
    (hlq : q.limit = some lv) (hl1 : 1 ≤ lv) (hl100 : lv ≤ 100)
    (hfresh : cacheFresh now₁ c₁ = true) (hdata : c₁.data = some store)
    (hstale : cacheFresh now₂ c₂ = false) :
    (∀ ts, (getTemplates now₁ rand fetch ⟨store, c₁⟩ q).1.body.templates = some ts →
        ∀ x ∈ ts, x.popularity.isSome ∧ x.boxCount.isSome) ∧
    ((getTemplates now₁ rand fetch ⟨store, c₁⟩ q).1.body.next.isSome
        ↔ p * lv < (store.length : Int)) ∧
    ((getTemplates now₁ rand fetch ⟨store, c₁⟩ q).1.body.previous.isSome
        ↔ 0 < (p - 1) * lv) ∧
    ((getTemplates now₂ rand fetch ⟨store, c₂⟩ q).1.body.next = none) ∧
    ((getTemplates now₂ rand fetch ⟨store, c₂⟩ q).1.body.previous = none) ∧
    (∀ ts, (getTemplates now₂ rand fetch ⟨store, c₂⟩ q).1.body.templates = some ts →
        ∀ x ∈ ts, x.popularity = none ∧ x.boxCount = none) ∧
    (store ≠ [] → p = 1 →
      (getTemplates now₁ rand fetch ⟨store, c₁⟩ q).1.body
        ≠ (getTemplates now₂ rand fetch ⟨store, c₂⟩ q).1.body) := by
  have hp0 : p ≠ 0 := by omega
  have hl0 : lv ≠ 0 := by omega
  have hpage : jsOr q.page 1 = p := by rw [hpq]; exact jsOr_some_of_ne _ _ hp0
  have hlimit : min (jsOr q.limit 20) 100 = lv := by
    rw [hlq, jsOr_some_of_ne _ _ hl0]
    exact min_eq_left hl100
  have hhitbody : (getTemplates now₁ rand fetch ⟨store, c₁⟩ q).1.body
      = paginateResults store p lv := by
    rw [getTemplates_cacheHit now₁ rand fetch ⟨store, c₁⟩ q hfresh, hpage, hlimit]
    rw [show (⟨store, c₁⟩ : ListState).cache.data.getD [] = store from by rw [hdata]; rfl]
  refine ⟨?_, ?_, ?_, ?_, ?_, ?_, ?_⟩
  · intro ts hts
    rw [hhitbody] at hts
    simp only [paginateResults, Option.some.injEq] at hts
    subst hts
    intro x hx
    simp only [List.mem_map] at hx
    obtain ⟨t, _, rfl⟩ := hx
    exact ⟨rfl, rfl⟩
  · rw [hhitbody]
    simp only [paginateResults]
    by_cases hlt : p * lv < (store.length : Int) <;> simp [hlt]
  · rw [hhitbody]
    simp only [paginateResults]
    by_cases hgt : (0 : Int) < (p - 1) * lv <;> simp [hgt]
  · cases hseed : (if checkDatabaseSeed store then seedTemplatesFromImgFlip now₂ rand fetch
        else Except.ok []) with
    | error e => rw [getTemplates_missErr now₂ rand fetch ⟨store, c₂⟩ q e hstale hseed]; rfl
    | ok nd => rw [getTemplates_missOk now₂ rand fetch ⟨store, c₂⟩ q nd hstale hseed]; rfl
  · cases hseed : (if checkDatabaseSeed store then seedTemplatesFromImgFlip now₂ rand fetch
        else Except.ok []) with
    | error e => rw [getTemplates_missErr now₂ rand fetch ⟨store, c₂⟩ q e hstale hseed]; rfl
    | ok nd => rw [getTemplates_missOk now₂ rand fetch ⟨store, c₂⟩ q nd hstale hseed]; rfl
  · intro ts hts
    cases hseed : (if checkDatabaseSeed store then seedTemplatesFromImgFlip now₂ rand fetch
        else Except.ok []) with
    | error e =>
      rw [getTemplates_missErr now₂ rand fetch ⟨store, c₂⟩ q e hstale hseed] at hts
      simp [fetchFailedBody] at hts
    | ok nd =>
      rw [getTemplates_missOk now₂ rand fetch ⟨store, c₂⟩ q nd hstale hseed] at hts
      simp only [missResult, Option.some.injEq] at hts
      subst hts
      intro x hx
      simp only [List.mem_map] at hx
      obtain ⟨t, _, rfl⟩ := hx
      exact ⟨rfl, rfl⟩
  · intro hne hp1'
    subst hp1'
    have hlen0 : store.length ≠ 0 := by
      simpa [List.length_eq_zero] using hne
    intro heq
    cases hseed : (if checkDatabaseSeed store then seedTemplatesFromImgFlip now₂ rand fetch
        else Except.ok []) with
    | error e =>
      rw [hhitbody, getTemplates_missErr now₂ rand fetch ⟨store, c₂⟩ q e hstale hseed] at heq
      have hsucc := congrArg ListBody.success heq
      simp [paginateResults, fetchFailedBody] at hsucc
    | ok nd =>
      have hnd : nd = [] := by
        rw [if_neg (by simp [checkDatabaseSeed, hlen0])] at hseed
        injection hseed.symm
      subst hnd
      rw [hhitbody, getTemplates_missOk now₂ rand fetch ⟨store, c₂⟩ q [] hstale hseed] at heq
      have htempl := congrArg ListBody.templates heq
      simp only [paginateResults, missResult, List.append_nil, Option.some.injEq] at htempl
      have hslice : 0 < (jsSlice store ((1 - 1) * lv) (1 * lv)).length := by
        have h0 : ((1 : Int) - 1) * lv = 0 := by ring
        have h1 : (1 : Int) * lv = lv := by ring
        rw [h0, h1]
        simp only [jsSlice, jsSliceIdx, if_neg (by omega : ¬(0 : Int) < 0),
          if_neg (by omega : ¬lv < 0), List.length_drop, List.length_take]
        have hlv : 0 < lv.toNat := by omega
        have hst : 0 < store.length := Nat.pos_of_ne_zero hlen0
        omega
      obtain ⟨x, hxm⟩ := List.exists_mem_of_length_pos
        (by rw [List.length_map]; exact hslice :
          0 < ((jsSlice store ((1 - 1) * lv) (1 * lv)).map Template.toFullJson).length)
      have hxfull : x.popularity.isSome := by
        simp only [List.mem_map] at hxm
        obtain ⟨t, _, rfl⟩ := hxm
        rfl
      rw [htempl] at hxm
      have hxsel : x.popularity = none := by
        simp only [List.mem_map] at hxm
        obtain ⟨t, _, rfl⟩ := hxm
        rfl
      rw [hxsel] at hxfull
      simp at hxfull

/-- C10 witness: at a concrete two-record store, identical parameters, and two
runs differing only in cache freshness, the bodies differ. -/
theorem c10_fresh_vs_stale_body_amended_witness :
    (getTemplates 1000 (fun _ => 0) (Except.ok []) ⟨[tAlpha, tBeta], freshCacheFx⟩
        ⟨some 1, some 20, none, none⟩).1.body
      ≠ (getTemplates 1000 (fun _ => 0) (Except.ok []) ⟨[tAlpha, tBeta], initialCache⟩
        ⟨some 1, some 20, none, none⟩).1.body :=
  (c10_fresh_vs_stale_body_amended 1000 1000 (fun _ => 0) (Except.ok [])
      [tAlpha, tBeta] freshCacheFx initialCache ⟨some 1, some 20, none, none⟩ 1 20
      rfl (by decide) rfl (by decide) (by decide)
      (by decide) (by decide) (by decide)).2.2.2.2.2.2
    (by decide) rfl

end MemeGen
